import Mathlib

/-!
Shallow embedding of the `unidirs` crate: unified application directories
(cache/config/data) for local development, service and per-user deployment,
together with the mode-detection builder (`src/simple.rs`), the three layout
strategies (`src/local.rs`, `src/service.rs`, `src/user.rs`) and the unified
selector (`src/unified.rs`).

Paths are UTF-8 strings (the crate uses `camino::Utf8PathBuf` throughout).
Platform state (environment variables, process arguments, username, working
directory, the `debug_assertions` build flag, and the external per-user
project-directory provider) is modelled explicitly by an `Env` record and
passed to the operations that read it in the source.
-/

namespace Unidirs

/-- Joining a relative, non-empty path component onto a UTF-8 base path, as
`camino::Utf8PathBuf::join`/`push` behaves on Unix for such components: a
separator is inserted unless the base is empty or already ends with one.
All joins in the crate use the fixed relative components `"cache"`,
`"config"`, `"data"` and `".local"`. -/
def joinRel (base child : String) : String :=
  if base == "" then child
  else if base.data.getLast? == some '/' then base ++ child
  else base ++ "/" ++ child

/-- Per-user directory set, `UserDirs` in `src/user.rs`: three owned UTF-8
paths delegated from the platform project-directory provider. -/
structure UserDirs where
  cache_dir : String
  config_dir : String
  data_dir : String
deriving DecidableEq

/-- Platform state read by the crate: the ambient inputs of `env::vars_os`,
`env::args_os`, `whoami::username_os`, `env::current_dir`, the compile-time
`cfg!(debug_assertions)` flag, and the external `directories::ProjectDirs`
provider (including its UTF-8 conversion), which may fail.

`cwd = none` models a working directory that cannot be read or whose path is
not valid UTF-8 (the two failure cases of `env::current_dir().ok()` followed
by `Utf8PathBuf::from_path_buf(..).ok()` in `LocalDirs::new`). -/
structure Env where
  vars : List (String × String)
  args : List String
  username : String
  cwd : Option String
  debug_assertions : Bool
  user_dirs : String → String → String → Option UserDirs

/-- Local directory set, `LocalDirs` in `src/local.rs`. -/
structure LocalDirs where
  cache_dir : String
  config_dir : String
  data_dir : String
deriving DecidableEq

/-- Constructor `LocalDirs::new_at` (`src/local.rs:62`): derive the three
subpaths `cache`, `config`, `data` from a caller-supplied base; total. -/
def LocalDirs.new_at (base : String) : LocalDirs :=
  { cache_dir := joinRel base "cache"
    config_dir := joinRel base "config"
    data_dir := joinRel base "data" }

/-- Constructor `LocalDirs::new` (`src/local.rs:42`): resolve the working
directory, fail if unreadable or not UTF-8, join `.local`, delegate to
`new_at`. -/
def LocalDirs.new (e : Env) : Option LocalDirs :=
  match e.cwd with
  | none => none
  | some base => some (LocalDirs.new_at (joinRel base ".local"))

/-- Service directory set, `ServiceDirs` in `src/service.rs`. -/
structure ServiceDirs where
  cache_dir : String
  config_dir : String
  data_dir : String
deriving DecidableEq

/-- Constructor `ServiceDirs::new` (`src/service.rs:60`), Unix family branch
(`#[cfg(unix)]`): pure string formatting into the fixed templates
`/var/cache/{application}`, `/etc/{application}`, `/var/lib/{application}`;
the `organization` parameter is unused on this target family. -/
def ServiceDirs.new (organization application : String) : ServiceDirs :=
  { cache_dir := "/var/cache/" ++ application
    config_dir := "/etc/" ++ application
    data_dir := "/var/lib/" ++ application }

/-- Constructor `UserDirs::new` (`src/user.rs:39`): delegates to the external
platform provider `directories::ProjectDirs::from` followed by UTF-8
conversion of the three paths, both modelled by the `Env.user_dirs` field;
returns `none` when the provider fails. -/
def UserDirs.new (e : Env) (qualifier organization application : String) :
    Option UserDirs :=
  e.user_dirs qualifier organization application

/-- Closed tagged union `UnifiedDirs` in `src/unified.rs`: exactly one of the
three layout strategies. -/
inductive UnifiedDirs where
  | Local (dirs : LocalDirs)
  | Service (dirs : ServiceDirs)
  | User (dirs : UserDirs)
deriving DecidableEq

/-- Accessor dispatch `UnifiedDirs::cache_dir` (`src/unified.rs:63`). -/
def UnifiedDirs.cache_dir : UnifiedDirs → String
  | .Local dirs => dirs.cache_dir
  | .Service dirs => dirs.cache_dir
  | .User dirs => dirs.cache_dir

/-- Accessor dispatch `UnifiedDirs::config_dir` (`src/unified.rs:71`). -/
def UnifiedDirs.config_dir : UnifiedDirs → String
  | .Local dirs => dirs.config_dir
  | .Service dirs => dirs.config_dir
  | .User dirs => dirs.config_dir

/-- Accessor dispatch `UnifiedDirs::data_dir` (`src/unified.rs:79`). -/
def UnifiedDirs.data_dir : UnifiedDirs → String
  | .Local dirs => dirs.data_dir
  | .Service dirs => dirs.data_dir
  | .User dirs => dirs.data_dir

/-- Shorthand `UnifiedDirs::local` (`src/unified.rs:24`). -/
def UnifiedDirs.local (e : Env) : Option UnifiedDirs :=
  (LocalDirs.new e).map UnifiedDirs.Local

/-- Shorthand `UnifiedDirs::local_at` (`src/unified.rs:29`). -/
def UnifiedDirs.local_at (base : String) : UnifiedDirs :=
  UnifiedDirs.Local (LocalDirs.new_at base)

/-- Shorthand `UnifiedDirs::service` (`src/unified.rs:35`). -/
def UnifiedDirs.service (organization application : String) : UnifiedDirs :=
  UnifiedDirs.Service (ServiceDirs.new organization application)

/-- Shorthand `UnifiedDirs::user` (`src/unified.rs:40`). -/
def UnifiedDirs.user (e : Env) (qualifier organization application : String) :
    Option UnifiedDirs :=
  (UserDirs.new e qualifier organization application).map UnifiedDirs.User

/-- Builder state `SimpleBuilder` in `src/simple.rs`: a running service flag
plus the three immutable identity strings. The Rust generics
`Q, O, A : AsRef str` are instantiated at `String`. -/
structure SimpleBuilder where
  service : Bool
  qualifier : String
  organization : String
  application : String
deriving DecidableEq

/-- Constructor `SimpleBuilder::new` (`src/simple.rs:24`): flag starts false. -/
def SimpleBuilder.new (qualifier organization application : String) :
    SimpleBuilder :=
  { service := false
    qualifier := qualifier
    organization := organization
    application := application }

/-- Entry point `UnifiedDirs::simple` (`src/unified.rs:52`). -/
def UnifiedDirs.simple (qualifier organization application : String) :
    SimpleBuilder :=
  SimpleBuilder.new qualifier organization application

/-- Combinator `SimpleBuilder::with` (`src/simple.rs:110`):
`service: self.service || f(&self)` with the identity fields carried over.
Rust `||` short-circuits, so `f` runs only when the flag is still false;
this pure version records the resulting flag value. -/
def SimpleBuilder.with (b : SimpleBuilder) (f : SimpleBuilder → Bool) :
    SimpleBuilder :=
  { service := b.service || f b
    qualifier := b.qualifier
    organization := b.organization
    application := b.application }

/-- Effect-observing version of `SimpleBuilder::with`: the predicate may
carry a side effect on a state of type `σ` (a counter, a trace), and the
short-circuit of Rust `||` is made explicit — when the flag is already true
the predicate is not run and the state is returned untouched, otherwise the
predicate runs once. This mirrors `src/simple.rs:112` exactly:
`self.service || f(&self)` evaluated left to right with short-circuit. -/
def SimpleBuilder.withT {σ : Type} (b : SimpleBuilder)
    (f : SimpleBuilder → σ → Bool × σ) (s : σ) : SimpleBuilder × σ :=
  let r := if b.service then (true, s) else f b s
  ({ service := r.1
     qualifier := b.qualifier
     organization := b.organization
     application := b.application }, r.2)

/-- Predicate of `SimpleBuilder::with_env` (`src/simple.rs:39`): some
environment variable is named exactly `SERVICE` or exactly `DAEMON`; the
value component of each pair is never inspected. -/
def envCheck (e : Env) : Bool :=
  e.vars.any fun p => p.1 == "SERVICE" || p.1 == "DAEMON"

/-- Predicate of `SimpleBuilder::with_args` (`src/simple.rs:47`): some
process argument equals exactly `--service` or exactly `--daemon`. -/
def argsCheck (e : Env) : Bool :=
  e.args.any fun name => name == "--service" || name == "--daemon"

/-- Predicate of `SimpleBuilder::with_username` (`src/simple.rs:56`): the
current OS account name equals the builder's application string exactly. -/
def usernameCheck (e : Env) (b : SimpleBuilder) : Bool :=
  e.username == b.application

/-- Sugar `SimpleBuilder::with_env` (`src/simple.rs:38`). -/
def SimpleBuilder.with_env (b : SimpleBuilder) (e : Env) : SimpleBuilder :=
  b.with fun _ => envCheck e

/-- Sugar `SimpleBuilder::with_args` (`src/simple.rs:46`). -/
def SimpleBuilder.with_args (b : SimpleBuilder) (e : Env) : SimpleBuilder :=
  b.with fun _ => argsCheck e

/-- Sugar `SimpleBuilder::with_username` (`src/simple.rs:55`). -/
def SimpleBuilder.with_username (b : SimpleBuilder) (e : Env) : SimpleBuilder :=
  b.with fun builder => usernameCheck e builder

/-- Trace-instrumented `with_env`: same predicate, and appends the label
`"env"` to the trace when (and only when) the predicate actually runs. -/
def SimpleBuilder.with_envT (b : SimpleBuilder) (e : Env) (t : List String) :
    SimpleBuilder × List String :=
  b.withT (fun _ t => (envCheck e, t ++ ["env"])) t

/-- Trace-instrumented `with_args`: appends `"args"` when the predicate
actually runs. -/
def SimpleBuilder.with_argsT (b : SimpleBuilder) (e : Env) (t : List String) :
    SimpleBuilder × List String :=
  b.withT (fun _ t => (argsCheck e, t ++ ["args"])) t

/-- Trace-instrumented `with_username`: appends `"username"` when the
predicate actually runs. -/
def SimpleBuilder.with_usernameT (b : SimpleBuilder) (e : Env)
    (t : List String) : SimpleBuilder × List String :=
  b.withT (fun builder t => (usernameCheck e builder, t ++ ["username"])) t

/-- Terminal operation `SimpleBuilder::build` (`src/simple.rs:128`):
`cfg!(debug_assertions)` forces the Local layout; otherwise the flag picks
Service (total) or User (may fail). -/
def SimpleBuilder.build (b : SimpleBuilder) (e : Env) : Option UnifiedDirs :=
  if e.debug_assertions then
    UnifiedDirs.local e
  else if b.service then
    some (UnifiedDirs.service b.organization b.application)
  else
    UnifiedDirs.user e b.qualifier b.organization b.application

/-- Sugar `SimpleBuilder::default` (`src/simple.rs:173`):
`self.with_env().with_args().with_username().build()`. -/
def SimpleBuilder.default (b : SimpleBuilder) (e : Env) : Option UnifiedDirs :=
  (((b.with_env e).with_args e).with_username e).build e

/-- Trace-instrumented counterpart of `SimpleBuilder::default`, chaining the
three instrumented checks in the source's fixed order and then `build`. -/
def SimpleBuilder.defaultT (b : SimpleBuilder) (e : Env) (t : List String) :
    Option UnifiedDirs × List String :=
  let r1 := b.with_envT e t
  let r2 := r1.1.with_argsT e r1.2
  let r3 := r2.1.with_usernameT e r2.2
  (r3.1.build e, r3.2)

/-- Concrete per-user directory set returned by the sample provider below. -/
def sampleUser : UserDirs :=
  { cache_dir := "/home/alice/.cache/app"
    config_dir := "/home/alice/.config/app"
    data_dir := "/home/alice/.local/share/app" }

/-- Concrete platform state: release build, readable UTF-8 working directory,
no service signals, and a provider that always resolves. -/
def sampleEnv : Env :=
  { vars := [("PATH", "/usr/bin")]
    args := ["app"]
    username := "alice"
    cwd := some "/work"
    debug_assertions := false
    user_dirs := fun _ _ _ => some sampleUser }

/-- Concrete platform state for a debug build. -/
def sampleDebugEnv : Env :=
  { sampleEnv with debug_assertions := true }

/-- Concrete platform state carrying a `SERVICE` environment variable. -/
def svcEnv : Env :=
  { sampleEnv with vars := [("SERVICE", "1")] }

/-- C3: for all strings `o`, `a`, `ServiceDirs::new o a` never fails (its
result type is `ServiceDirs`, not an `Option`) and on a Unix-family target
produces exactly `/var/cache/` ++ a, `/etc/` ++ a and `/var/lib/` ++ a, the
application string inserted as-is without validation. -/
theorem serviceDirs_new_unix_paths (o a : String) :
    (ServiceDirs.new o a).cache_dir = "/var/cache/" ++ a ∧
    (ServiceDirs.new o a).config_dir = "/etc/" ++ a ∧
    (ServiceDirs.new o a).data_dir = "/var/lib/" ++ a :=
  ⟨rfl, rfl, rfl⟩

/-- C6: on a Unix-family target `ServiceDirs::new` ignores its organization
argument; the result depends only on the application string. -/
theorem serviceDirs_new_ignores_organization (o1 o2 a : String) :
    ServiceDirs.new o1 a = ServiceDirs.new o2 a :=
  rfl

/-- C4: for every UTF-8 base path `b`, `LocalDirs::new_at b` is total (its
result type is `LocalDirs`, not an `Option`) and yields exactly
`b`/`cache`, `b`/`config`, `b`/`data`, with no OS-specific branching. -/
theorem localDirs_new_at_paths (b : String) :
    (LocalDirs.new_at b).cache_dir = joinRel b "cache" ∧
    (LocalDirs.new_at b).config_dir = joinRel b "config" ∧
    (LocalDirs.new_at b).data_dir = joinRel b "data" :=
  ⟨rfl, rfl, rfl⟩

/-- C9: wrapping a base path in the unified selector via `local_at` yields
exactly the three accessor values of `LocalDirs::new_at` on the same path. -/
theorem unified_local_at_roundtrip (p : String) :
    (UnifiedDirs.local_at p).cache_dir = (LocalDirs.new_at p).cache_dir ∧
    (UnifiedDirs.local_at p).config_dir = (LocalDirs.new_at p).config_dir ∧
    (UnifiedDirs.local_at p).data_dir = (LocalDirs.new_at p).data_dir :=
  ⟨rfl, rfl, rfl⟩

/-- C5: `LocalDirs::new` succeeds exactly when the working directory is
readable and valid UTF-8 (`Env.cwd` is `some`), and on success it equals
`LocalDirs::new_at` applied to the working directory joined with `.local`. -/
theorem localDirs_new_cwd (e : Env) :
    ((LocalDirs.new e).isSome ↔ e.cwd.isSome) ∧
    (∀ c, e.cwd = some c →
      LocalDirs.new e = some (LocalDirs.new_at (joinRel c ".local"))) := by
  constructor
  · cases h : e.cwd <;> simp [LocalDirs.new, h]
  · intro c hc
    simp [LocalDirs.new, hc]

/-- Witness for C5 at a concrete environment whose working directory is
`/work`. -/
theorem localDirs_new_cwd_witness :
    LocalDirs.new sampleEnv = some (LocalDirs.new_at (joinRel "/work" ".local")) :=
  (localDirs_new_cwd sampleEnv).2 "/work" rfl

/-- C1: `build` follows the strict priority of `src/simple.rs:128`. In a
debug build it is the Local layout regardless of the flag, failing exactly
when Local construction fails; otherwise a true flag yields the Service
layout and never fails; otherwise the User layout, failing exactly when the
platform provider fails. -/
theorem simpleBuilder_build_priority (e : Env) (b : SimpleBuilder) :
    (e.debug_assertions = true →
      b.build e = (LocalDirs.new e).map UnifiedDirs.Local ∧
      (b.build e = none ↔ LocalDirs.new e = none)) ∧
    (e.debug_assertions = false → b.service = true →
      b.build e = some (UnifiedDirs.service b.organization b.application)) ∧
    (e.debug_assertions = false → b.service = false →
      b.build e =
        (UserDirs.new e b.qualifier b.organization b.application).map
          UnifiedDirs.User ∧
      (b.build e = none ↔
        UserDirs.new e b.qualifier b.organization b.application = none)) := by
  refine ⟨fun hd => ?_, fun hd hs => ?_, fun hd hs => ?_⟩
  · simp [SimpleBuilder.build, UnifiedDirs.local, hd, Option.map_eq_none']
  · simp [SimpleBuilder.build, hd, hs]
  · simp [SimpleBuilder.build, UnifiedDirs.user, hd, hs, Option.map_eq_none']

/-- Witness for C1: all three priority branches applied at concrete
environments and builder states. -/
theorem simpleBuilder_build_priority_witness :
    ((SimpleBuilder.new "com" "example" "app").build sampleDebugEnv = none ↔
      LocalDirs.new sampleDebugEnv = none) ∧
    (SimpleBuilder.mk true "com" "example" "app").build sampleEnv =
      some (UnifiedDirs.service "example" "app") ∧
    ((SimpleBuilder.new "com" "example" "app").build sampleEnv = none ↔
      UserDirs.new sampleEnv "com" "example" "app" = none) :=
  ⟨((simpleBuilder_build_priority sampleDebugEnv
      (SimpleBuilder.new "com" "example" "app")).1 rfl).2,
   (simpleBuilder_build_priority sampleEnv
      (SimpleBuilder.mk true "com" "example" "app")).2.1 rfl rfl,
   ((simpleBuilder_build_priority sampleEnv
      (SimpleBuilder.new "com" "example" "app")).2.2 rfl rfl).2⟩

/-- C2: on a builder whose flag is already true, `with` does not run the
predicate: the state is untouched and the builder is returned unchanged, so
any two predicates give equal results, and a further chained `with` is also
skipped. -/
theorem simpleBuilder_with_short_circuit {σ : Type} (b : SimpleBuilder)
    (h : b.service = true) (f g : SimpleBuilder → σ → Bool × σ) (s : σ) :
    b.withT f s = (b, s) ∧ b.withT f s = b.withT g s ∧
    (b.withT f s).1.withT g (b.withT f s).2 = (b, s) := by
  obtain ⟨sv, q, o, a⟩ := b
  cases h
  exact ⟨rfl, rfl, rfl⟩

/-- Witness for C2: a counting predicate on a flag-true builder leaves the
counter at its initial value. -/
theorem simpleBuilder_with_short_circuit_witness :
    (SimpleBuilder.mk true "com" "example" "app").withT
      (fun _ n => (true, n + 1)) 0 =
      (SimpleBuilder.mk true "com" "example" "app", 0) :=
  (simpleBuilder_with_short_circuit (SimpleBuilder.mk true "com" "example" "app")
    rfl (fun _ n => (true, n + 1)) (fun _ n => (false, n + 7)) 0).1

/-- C7: the three detection predicates test exactly the reserved literal
tokens. Starting from a flag-false builder, `with_env` sets the flag iff a
variable named exactly `SERVICE` or `DAEMON` is present (its value ignored),
`with_args` iff some argument equals exactly `--service` or `--daemon`, and
`with_username` iff the account name equals the application string exactly. -/
theorem detection_predicates_exact (e : Env) (b : SimpleBuilder)
    (h : b.service = false) :
    ((b.with_env e).service = true ↔
      ∃ p ∈ e.vars, p.1 = "SERVICE" ∨ p.1 = "DAEMON") ∧
    ((b.with_args e).service = true ↔
      ∃ x ∈ e.args, x = "--service" ∨ x = "--daemon") ∧
    ((b.with_username e).service = true ↔ e.username = b.application) := by
  simp [SimpleBuilder.with_env, SimpleBuilder.with_args,
    SimpleBuilder.with_username, SimpleBuilder.with, envCheck, argsCheck,
    usernameCheck, h, List.any_eq_true]

/-- Witness for C7: a `SERVICE` variable (with an arbitrary value) flips the
flag of a fresh builder. -/
theorem detection_predicates_exact_witness :
    ((SimpleBuilder.new "com" "example" "app").with_env svcEnv).service = true :=
  (detection_predicates_exact svcEnv (SimpleBuilder.new "com" "example" "app")
    rfl).1.mpr ⟨("SERVICE", "1"), by simp [svcEnv, sampleEnv], Or.inl rfl⟩

/-- C8: `default` equals the chain `with_env`, `with_args`, `with_username`,
`build` in that fixed order; the trace-instrumented chain computes the same
result and records exactly the checks up to and including the first positive
signal, in the priority order environment, arguments, username (and records
none when the flag was already true). -/
theorem simpleBuilder_default_chain (e : Env) (b : SimpleBuilder) :
    b.default e = (((b.with_env e).with_args e).with_username e).build e ∧
    (b.defaultT e []).1 = b.default e ∧
    (b.defaultT e []).2 =
      (if b.service then [] else
       if envCheck e then ["env"] else
       if argsCheck e then ["env", "args"] else ["env", "args", "username"]) := by
  refine ⟨rfl, ?_, ?_⟩ <;>
    cases hs : b.service <;> cases he : envCheck e <;> cases ha : argsCheck e <;>
      simp [SimpleBuilder.default, SimpleBuilder.defaultT,
        SimpleBuilder.with_envT, SimpleBuilder.with_argsT,
        SimpleBuilder.with_usernameT, SimpleBuilder.withT,
        SimpleBuilder.with_env, SimpleBuilder.with_args,
        SimpleBuilder.with_username, SimpleBuilder.with, usernameCheck,
        hs, he, ha]

/-- C10: a fresh builder starts with the flag false, so in a non-debug build
`build` with no intervening `with` calls returns exactly the User-backed
result of the platform provider, fails exactly when the provider fails, and
never selects the Service layout. -/
theorem simple_fresh_build_is_user (e : Env) (q o a : String)
    (hd : e.debug_assertions = false) :
    (UnifiedDirs.simple q o a).service = false ∧
    (UnifiedDirs.simple q o a).build e =
      (UserDirs.new e q o a).map UnifiedDirs.User ∧
    ((UnifiedDirs.simple q o a).build e = none ↔ UserDirs.new e q o a = none) ∧
    ∀ s, (UnifiedDirs.simple q o a).build e ≠ some (UnifiedDirs.Service s) := by
  have hb : (UnifiedDirs.simple q o a).build e =
      (UserDirs.new e q o a).map UnifiedDirs.User := by
    simp [UnifiedDirs.simple, SimpleBuilder.new, SimpleBuilder.build,
      UnifiedDirs.user, hd]
  refine ⟨rfl, hb, ?_, ?_⟩
  · rw [hb]
    exact Option.map_eq_none'
  · intro s hcontra
    rw [hb] at hcontra
    cases hud : UserDirs.new e q o a <;> rw [hud] at hcontra <;> simp at hcontra

/-- Witness for C10 at a concrete release-build environment whose provider
resolves. -/
theorem simple_fresh_build_is_user_witness :
    (UnifiedDirs.simple "com" "example" "app").build sampleEnv =
      some (UnifiedDirs.User sampleUser) :=
  ((simple_fresh_build_is_user sampleEnv "com" "example" "app" rfl).2.1).trans rfl

end Unidirs
